import Mathlib

/-!
Shallow embedding of the QR Code Webhook Server (src/main.py).

The embedded core is the slug issuance, persistence and redirect-resolution
subsystem: the SQLite tables `qr_codes` and `qr_scans` (init_db), the
issuance handler `receive_webhook`, and the resolver `follow_qr`.
Machine-level collaborators are modelled explicitly:
  * the SQLite database is a record of the two tables plus the AUTOINCREMENT
    counter for `qr_scans.id`;
  * the filesystem holding the rendered QR images is an association list
    from filename to image;
  * the external QR renderer (`qrcode.make`) is a pure constructor keeping
    the encoded text, mirroring the spec treatment of the Image Renderer as
    a pure function from text to image bytes;
  * the slug from `secrets.token_urlsafe(8)` and the timestamps from
    `datetime.utcnow().isoformat()` enter the handlers as parameters, since
    they are external nondeterminism.
`urllib.parse.urlencode` with its default `quote_via=quote_plus` is embedded
byte-for-byte over the UTF-8 encoding of the parameter strings.
-/

namespace QRServer

/-- A row of the `qr_codes` table (init_db, src/main.py lines 76-85). -/
structure LinkRecord where
  slug : String
  url : String
  file_path : String
  created_at : String
deriving DecidableEq, Repr

/-- A row of the `qr_scans` table (init_db, src/main.py lines 86-95).
`id` is the SQLite AUTOINCREMENT primary key. -/
structure ScanEvent where
  id : Nat
  slug : String
  ip : String
  scanned_at : String
deriving DecidableEq, Repr

/-- The SQLite database: both tables plus the AUTOINCREMENT counter that
assigns the next `qr_scans.id` (strictly larger than any id ever used). -/
structure DB where
  qr_codes : List LinkRecord
  qr_scans : List ScanEvent
  nextScanId : Nat
deriving DecidableEq, Repr

/-- A rendered QR image; `payload` is the exact text encoded by
`qrcode.make`. -/
structure Image where
  payload : String
deriving DecidableEq, Repr

/-- The external renderer `qrcode.make(text)`: a pure function from the text
payload to an image encoding exactly that text. -/
def qrcodeMake (text : String) : Image := ⟨text⟩

/-- Whole-system state: the database plus the QR_DIR filesystem (filenames
mapped to saved images). -/
structure Sys where
  db : DB
  files : List (String × Image)
deriving DecidableEq, Repr

/-- The request body of POST /webhook (class WebhookPayload, src/main.py
lines 37-39); `params` keeps the JSON object's insertion order. -/
structure WebhookPayload where
  params : List (String × String)
  base_url : String := "https://example.com"
deriving DecidableEq, Repr

/-- Uppercase hexadecimal digit for `n < 16`. -/
def hexDigit (n : Nat) : Char :=
  if n < 10 then Char.ofNat (48 + n) else Char.ofNat (55 + n)

/-- `%XX` escape of one byte, as produced by `urllib.parse.quote`. -/
def percentEncodeByte (b : Nat) : String :=
  String.mk ['%', hexDigit (b / 16), hexDigit (b % 16)]

/-- Bytes `urllib.parse.quote` never escapes: ASCII letters, digits and
`_.-~` (with the default `safe=''` used by `urlencode`). -/
def isUnreservedByte (b : Nat) : Bool :=
  (65 ≤ b && b ≤ 90) || (97 ≤ b && b ≤ 122) || (48 ≤ b && b ≤ 57) ||
  b == 45 || b == 46 || b == 95 || b == 126

/-- UTF-8 encoding of one Unicode code point, as a list of byte values. -/
def utf8Bytes (c : Nat) : List Nat :=
  if c < 128 then [c]
  else if c < 2048 then [192 + c / 64, 128 + c % 64]
  else if c < 65536 then [224 + c / 4096, 128 + (c / 64) % 64, 128 + c % 64]
  else [240 + c / 262144, 128 + (c / 4096) % 64, 128 + (c / 64) % 64, 128 + c % 64]

/-- The UTF-8 bytes of a string — Python's `str.encode('utf-8')`, which is
what `urllib.parse.quote` operates on. -/
def stringBytes (s : String) : List Nat :=
  (s.data.map (fun ch => utf8Bytes ch.toNat)).flatten

/-- `urllib.parse.quote_plus` with default arguments: the string's UTF-8
bytes, with spaces as `+`, unreserved bytes kept, everything else
percent-escaped with uppercase hex. -/
def quote_plus (s : String) : String :=
  String.join ((stringBytes s).map (fun b =>
    if b == 32 then "+"
    else if isUnreservedByte b then String.mk [Char.ofNat b]
    else percentEncodeByte b))

/-- `urllib.parse.urlencode` on a str-to-str mapping with default arguments:
`quote_plus` on each key and value, pairs joined by `&`. -/
def urlencode (params : List (String × String)) : String :=
  String.intercalate "&" (params.map (fun kv => quote_plus kv.1 ++ "=" ++ quote_plus kv.2))

/-- Destination-URL construction of receive_webhook (src/main.py lines
113-116): start from `base_url`; if `params` is non-empty (Python dict
truthiness) append `"?"` plus the urlencoded params. -/
def buildDestinationUrl (base_url : String) (params : List (String × String)) : String :=
  if params.isEmpty then base_url else base_url ++ "?" ++ urlencode params

/-- `SELECT url FROM qr_codes WHERE slug=?` followed by `fetchone`
(src/main.py lines 151-152): first matching row's url, if any. -/
def lookupUrl (slug : String) (db : DB) : Option String :=
  (db.qr_codes.find? (fun r => r.slug = slug)).map (fun r => r.url)

/-- `INSERT INTO qr_codes(...)` (src/main.py lines 134-137). `slug` is the
PRIMARY KEY, so the insert raises IntegrityError — modelled as `none` —
when a row with that slug already exists; otherwise the new row is
appended. -/
def insertLink (slug url fp created : String) (db : DB) : Option DB :=
  if db.qr_codes.any (fun r => r.slug = slug) then none
  else some { db with qr_codes := db.qr_codes ++ [⟨slug, url, fp, created⟩] }

/-- `INSERT INTO qr_scans(slug, ip, scanned_at)` (src/main.py lines
158-161): always succeeds, appends a row with the next AUTOINCREMENT id.
The `qr_scans` schema has no foreign key on `slug`, so the insert never
consults `qr_codes`. -/
def recordScan (slug ip scanned_at : String) (db : DB) : ScanEvent × DB :=
  let ev : ScanEvent := ⟨db.nextScanId, slug, ip, scanned_at⟩
  (ev, { db with qr_scans := db.qr_scans ++ [ev], nextScanId := db.nextScanId + 1 })

/-- Filesystem read: the image stored under `name`, if any. -/
def getFile (name : String) (fs : List (String × Image)) : Option Image :=
  (fs.find? (fun e => e.1 = name)).map (fun e => e.2)

/-- Filesystem write `img.save(filepath)`: overwrite the entry under `name`
if present, else append it. -/
def saveFile (name : String) (img : Image) : List (String × Image) → List (String × Image)
  | [] => [(name, img)]
  | e :: fs => if e.1 = name then (name, img) :: fs else e :: saveFile name img fs

/-- Outcome of POST /webhook: the JSON body on success (qr_code_url and
redirect_url, src/main.py line 143), or the uncaught sqlite3
IntegrityError escaping the handler when the slug already exists. -/
inductive IssueOutcome where
  | ok (qr_code_url : String) (redirect_url : String)
  | integrityError
deriving DecidableEq, Repr

/-- The issuance handler receive_webhook (src/main.py lines 104-143),
with the generated slug, the request base URL and the current timestamp as
parameters. Steps, in source order: build the destination url; build
`redirect_url = request_base ++ "r/" ++ slug` (Starlette's
`request.base_url` ends in a slash); render and SAVE the QR image; then
INSERT the link row. On IntegrityError the `with` block rolls the
transaction back (db unchanged) and the exception escapes — but the image
file has already been written. -/
def receive_webhook (payload : WebhookPayload) (request_base slug now : String)
    (s : Sys) : IssueOutcome × Sys :=
  let url := buildDestinationUrl payload.base_url payload.params
  let redirect_url := request_base ++ "r/" ++ slug
  let img := qrcodeMake redirect_url
  let filename := slug ++ ".png"
  let files1 := saveFile filename img s.files
  match insertLink slug url ("qr_codes/" ++ filename) now s.db with
  | some db1 =>
      (IssueOutcome.ok ("/static/" ++ filename) redirect_url, { db := db1, files := files1 })
  | none => (IssueOutcome.integrityError, { db := s.db, files := files1 })

/-- Outcome of GET /r/{slug}: a redirect to the stored url, or the 404
"Unknown QR code". -/
inductive ResolveOutcome where
  | redirect (url : String)
  | notFound
deriving DecidableEq, Repr

/-- The resolver follow_qr (src/main.py lines 146-164): look the slug up;
if absent raise 404 before any insert; if present record the scan
(source address from `request.client`, timestamp `now`) and redirect to
the stored url. -/
def follow_qr (slug sourceAddress now : String) (s : Sys) : ResolveOutcome × Sys :=
  match lookupUrl slug s.db with
  | none => (ResolveOutcome.notFound, s)
  | some url =>
      (ResolveOutcome.redirect url,
        { s with db := (recordScan slug sourceAddress now s.db).2 })

/-- One request against the core: an issuance or a resolution, with all
external inputs (payload, base url, generated slug, source address,
timestamps) packaged in. -/
inductive Op where
  | issueOp (payload : WebhookPayload) (request_base slug now : String)
  | scanOp (slug sourceAddress now : String)
deriving DecidableEq, Repr

/-- State transition of one request. -/
def applyOp (op : Op) (s : Sys) : Sys :=
  match op with
  | .issueOp p b g n => (receive_webhook p b g n s).2
  | .scanOp g a n => (follow_qr g a n s).2

/-- State after a sequence of requests. -/
def applyOps (ops : List Op) (s : Sys) : Sys :=
  ops.foldl (fun s op => applyOp op s) s

/-- Concrete states used to instantiate the theorems below. -/
def emptySys : Sys :=
  { db := { qr_codes := [], qr_scans := [], nextScanId := 1 }, files := [] }

/-- A state holding one issued link for slug "abc". -/
def oneLinkSys : Sys :=
  { db := { qr_codes := [⟨"abc", "https://example.com", "qr_codes/abc.png", "t0"⟩],
            qr_scans := [], nextScanId := 1 },
    files := [("abc.png", qrcodeMake "http://h/r/abc")] }

/-- A state holding a link for slug "abc" whose image file is absent. -/
def sysNoFile : Sys :=
  { db := { qr_codes := [⟨"abc", "https://old.example", "qr_codes/abc.png", "t0"⟩],
            qr_scans := [], nextScanId := 1 },
    files := [] }

theorem find?_append_some {α} {p : α → Bool} {l1 : List α} (l2 : List α) {a : α}
    (h : l1.find? p = some a) : (l1 ++ l2).find? p = some a := by
  induction l1 with
  | nil => simp [List.find?] at h
  | cons x xs ih =>
    cases hx : p x with
    | true => simp_all [List.find?]
    | false => simp_all [List.find?]

theorem find?_eq_none_of_any_false {α} {p : α → Bool} {l : List α}
    (h : l.any p = false) : l.find? p = none := by
  induction l with
  | nil => rfl
  | cons x xs ih =>
    simp only [List.any_cons, Bool.or_eq_false_iff] at h
    simp [List.find?, h.1, ih h.2]

theorem find?_append_none {α} {p : α → Bool} {l1 : List α} (l2 : List α)
    (h : l1.find? p = none) : (l1 ++ l2).find? p = l2.find? p := by
  induction l1 with
  | nil => rfl
  | cons x xs ih =>
    cases hx : p x with
    | true => simp_all [List.find?]
    | false => simp_all [List.find?]

theorem insertLink_some {slug url fp created : String} {db db1 : DB}
    (h : insertLink slug url fp created db = some db1) :
    db.qr_codes.any (fun r => r.slug = slug) = false ∧
    db1 = { db with qr_codes := db.qr_codes ++ [⟨slug, url, fp, created⟩] } := by
  unfold insertLink at h
  split at h
  · exact Option.noConfusion h
  next hc => exact ⟨Bool.eq_false_iff.mpr hc, (Option.some.inj h).symm⟩

theorem lookupUrl_append_fresh (slug url fp created : String) (db : DB)
    (h : db.qr_codes.any (fun r => r.slug = slug) = false) :
    lookupUrl slug { db with qr_codes := db.qr_codes ++ [⟨slug, url, fp, created⟩] }
      = some url := by
  unfold lookupUrl
  simp only
  rw [find?_append_none _ (find?_eq_none_of_any_false h)]
  simp [List.find?]

theorem getFile_saveFile (name : String) (img : Image) (fs : List (String × Image)) :
    getFile name (saveFile name img fs) = some img := by
  induction fs with
  | nil => simp [getFile, saveFile, List.find?]
  | cons e fs ih =>
    by_cases hc : e.1 = name
    · simp [getFile, saveFile, hc, List.find?]
    · simp only [saveFile, if_neg hc]
      simpa [getFile, List.find?, hc] using ih

/-- C1: resolving a freshly minted slug returns, byte-for-byte, the
destinationUrl that issuance built and stored. Stated with the success
precondition of the insert (the slug is fresh in the store): issuance then
returns the ok response and resolving the slug redirects to exactly
`buildDestinationUrl payload.base_url payload.params`. -/
theorem resolve_after_issue (p : WebhookPayload) (base slug now src t : String) (s : Sys)
    (h : s.db.qr_codes.any (fun r => r.slug = slug) = false) :
    (receive_webhook p base slug now s).1
      = IssueOutcome.ok ("/static/" ++ (slug ++ ".png")) (base ++ "r/" ++ slug) ∧
    (follow_qr slug src t (receive_webhook p base slug now s).2).1
      = ResolveOutcome.redirect (buildDestinationUrl p.base_url p.params) := by
  have hins : insertLink slug (buildDestinationUrl p.base_url p.params)
      ("qr_codes/" ++ (slug ++ ".png")) now s.db
      = some { s.db with qr_codes := s.db.qr_codes ++
          [⟨slug, buildDestinationUrl p.base_url p.params,
            "qr_codes/" ++ (slug ++ ".png"), now⟩] } := by
    simp [insertLink, h]
  refine ⟨by simp [receive_webhook, hins], ?_⟩
  have hl := lookupUrl_append_fresh slug (buildDestinationUrl p.base_url p.params)
    ("qr_codes/" ++ (slug ++ ".png")) now s.db h
  simp [receive_webhook, hins, follow_qr, hl]

/-- Witness for C1 at a concrete issuance over the empty store. -/
theorem resolve_after_issue_witness :
    (receive_webhook ⟨[("a", "1")], "https://example.com"⟩ "http://h/" "abc" "t1" emptySys).1
      = IssueOutcome.ok ("/static/" ++ ("abc" ++ ".png")) ("http://h/" ++ "r/" ++ "abc") ∧
    (follow_qr "abc" "1.2.3.4" "t2"
        (receive_webhook ⟨[("a", "1")], "https://example.com"⟩ "http://h/" "abc" "t1" emptySys).2).1
      = ResolveOutcome.redirect (buildDestinationUrl "https://example.com" [("a", "1")]) :=
  resolve_after_issue ⟨[("a", "1")], "https://example.com"⟩ "http://h/" "abc" "t1"
    "1.2.3.4" "t2" emptySys (by decide)

/-- C3: resolving a slug that was never issued returns the 404 outcome and
returns the state unchanged — no LinkRecord is created and no ScanEvent is
recorded. -/
theorem resolve_unknown_not_found (slug src now : String) (s : Sys)
    (h : lookupUrl slug s.db = none) :
    follow_qr slug src now s = (ResolveOutcome.notFound, s) := by
  simp [follow_qr, h]

/-- Witness for C3: an unknown slug against the empty store. -/
theorem resolve_unknown_not_found_witness :
    follow_qr "zzz" "1.2.3.4" "t0" emptySys = (ResolveOutcome.notFound, emptySys) :=
  resolve_unknown_not_found "zzz" "1.2.3.4" "t0" emptySys (by decide)

/-- C4: empty params leave the destination template unchanged (no "?"
appended); non-empty params append "?" plus the urlencoded pairs; and the
spec example evaluates to the percent-encoded `a=1&b=2` form. -/
theorem build_destination_url_query (t : String) (params : List (String × String)) :
    (params = [] → buildDestinationUrl t params = t) ∧
    (params ≠ [] → buildDestinationUrl t params = t ++ "?" ++ urlencode params) ∧
    buildDestinationUrl "https://example.com" [("a", "1"), ("b", "2")]
      = "https://example.com?a=1&b=2" := by
  refine ⟨fun h => by simp [buildDestinationUrl, h], fun h => ?_, by decide⟩
  simp [buildDestinationUrl, h]

/-- Witness for C4 at empty and at non-empty concrete params. -/
theorem build_destination_url_query_witness :
    buildDestinationUrl "https://example.com" [] = "https://example.com" ∧
    buildDestinationUrl "https://example.com" [("a", "1")]
      = "https://example.com" ++ "?" ++ urlencode [("a", "1")] :=
  ⟨(build_destination_url_query "https://example.com" []).1 rfl,
   (build_destination_url_query "https://example.com" [("a", "1")]).2.1 (by decide)⟩

/-- C2 counterexample: with the slug "abc" already stored, issuance with a
generated slug "abc" does not regenerate and retry — the IntegrityError
from the duplicate insert escapes the handler and is surfaced to the
caller, refuting "DuplicateSlug is never surfaced to the caller". -/
theorem duplicate_surfaced_cex :
    (receive_webhook ⟨[("x", "1")], "https://example.com"⟩ "http://h/" "abc" "t1" oneLinkSys).1
      = IssueOutcome.integrityError := by decide

/-- C2 amended: when the generated slug collides with a stored one, the
insert fails, the error propagates to the caller (there is no retry loop in
receive_webhook), and the database is left unchanged. -/
theorem duplicate_insert_surfaces_error (p : WebhookPayload) (base slug now : String)
    (s : Sys) (h : s.db.qr_codes.any (fun r => r.slug = slug) = true) :
    (receive_webhook p base slug now s).1 = IssueOutcome.integrityError ∧
    (receive_webhook p base slug now s).2.db = s.db := by
  have hins : insertLink slug (buildDestinationUrl p.base_url p.params)
      ("qr_codes/" ++ (slug ++ ".png")) now s.db = none := by
    simp [insertLink, h]
  exact ⟨by simp [receive_webhook, hins], by simp [receive_webhook, hins]⟩

/-- Witness for the amended C2 at a concrete colliding issuance. -/
theorem duplicate_insert_surfaces_error_witness :
    (receive_webhook ⟨[], "https://other.example"⟩ "http://h/" "abc" "t3" oneLinkSys).1
      = IssueOutcome.integrityError ∧
    (receive_webhook ⟨[], "https://other.example"⟩ "http://h/" "abc" "t3" oneLinkSys).2.db
      = oneLinkSys.db :=
  duplicate_insert_surfaces_error ⟨[], "https://other.example"⟩ "http://h/" "abc" "t3"
    oneLinkSys (by decide)

/-- C5: each successful resolution of an existing slug appends exactly one
ScanEvent referencing that slug; two successive resolutions (from any
source addresses) append two distinct events with strictly increasing ids;
and every operation of the system extends `qr_scans` on the right only —
no existing ScanEvent is mutated or removed. -/
theorem scan_events_append_in_order (s : Sys) (slug u src1 src2 t1 t2 : String)
    (h : lookupUrl slug s.db = some u) :
    (∃ e1 e2 : ScanEvent,
      (follow_qr slug src1 t1 s).2.db.qr_scans = s.db.qr_scans ++ [e1] ∧
      (follow_qr slug src2 t2 (follow_qr slug src1 t1 s).2).2.db.qr_scans
        = s.db.qr_scans ++ [e1, e2] ∧
      e1.slug = slug ∧ e2.slug = slug ∧ e1.id < e2.id) ∧
    ∀ op : Op, ∃ rest : List ScanEvent,
      (applyOp op s).db.qr_scans = s.db.qr_scans ++ rest := by
  constructor
  · refine ⟨⟨s.db.nextScanId, slug, src1, t1⟩,
      ⟨s.db.nextScanId + 1, slug, src2, t2⟩, ?_, ?_, rfl, rfl, Nat.lt_succ_self _⟩
    · simp [follow_qr, h, recordScan]
    · have h2 : lookupUrl slug
          { qr_codes := s.db.qr_codes,
            qr_scans := s.db.qr_scans ++ [⟨s.db.nextScanId, slug, src1, t1⟩],
            nextScanId := s.db.nextScanId + 1 } = some u := by
        simpa [lookupUrl] using h
      simp [follow_qr, h, h2, recordScan]
  · intro op
    cases op with
    | issueOp p b g n =>
      simp only [applyOp, receive_webhook]
      split
      next db1 heq =>
        obtain ⟨-, rfl⟩ := insertLink_some heq
        exact ⟨[], by simp⟩
      next heq => exact ⟨[], by simp⟩
    | scanOp g a n =>
      cases hl : lookupUrl g s.db with
      | none => exact ⟨[], by simp [applyOp, follow_qr, hl]⟩
      | some v =>
        exact ⟨[⟨s.db.nextScanId, g, a, n⟩], by simp [applyOp, follow_qr, hl, recordScan]⟩

/-- Witness for C5: two concrete scans of the stored slug "abc". -/
theorem scan_events_append_in_order_witness :
    (∃ e1 e2 : ScanEvent,
      (follow_qr "abc" "1.1.1.1" "t1" oneLinkSys).2.db.qr_scans
        = oneLinkSys.db.qr_scans ++ [e1] ∧
      (follow_qr "abc" "2.2.2.2" "t2" (follow_qr "abc" "1.1.1.1" "t1" oneLinkSys).2).2.db.qr_scans
        = oneLinkSys.db.qr_scans ++ [e1, e2] ∧
      e1.slug = "abc" ∧ e2.slug = "abc" ∧ e1.id < e2.id) ∧
    ∀ op : Op, ∃ rest : List ScanEvent,
      (applyOp op oneLinkSys).db.qr_scans = oneLinkSys.db.qr_scans ++ rest :=
  scan_events_append_in_order oneLinkSys "abc" "https://example.com" "1.1.1.1" "2.2.2.2"
    "t1" "t2" (by decide)

theorem lookupUrl_applyOp (op : Op) (s : Sys) {slug u : String}
    (h : lookupUrl slug s.db = some u) :
    lookupUrl slug (applyOp op s).db = some u := by
  obtain ⟨r, hr, hru⟩ := Option.map_eq_some'.mp h
  cases op with
  | issueOp p b g n =>
    simp only [applyOp, receive_webhook]
    split
    next db1 heq =>
      obtain ⟨-, rfl⟩ := insertLink_some heq
      simp only [lookupUrl]
      rw [find?_append_some _ hr]
      simp [hru]
    next heq => exact h
  | scanOp g a n =>
    cases hl : lookupUrl g s.db with
    | none => simpa [applyOp, follow_qr, hl] using h
    | some v =>
      simp only [applyOp, follow_qr, hl, recordScan]
      simpa [lookupUrl] using h

/-- C6: a LinkRecord is immutable — after any sequence of issuance and
resolution requests, looking the slug up still returns the identical
destinationUrl. -/
theorem link_record_immutable (ops : List Op) (s : Sys) (slug u : String)
    (h : lookupUrl slug s.db = some u) :
    lookupUrl slug (applyOps ops s).db = some u := by
  induction ops generalizing s with
  | nil => exact h
  | cons op ops ih => exact ih (applyOp op s) (lookupUrl_applyOp op s h)

/-- Witness for C6: a scan of "abc" followed by an unrelated issuance
leaves the lookup of "abc" unchanged. -/
theorem link_record_immutable_witness :
    lookupUrl "abc"
      (applyOps [Op.scanOp "abc" "9.9.9.9" "t1",
        Op.issueOp ⟨[], "https://other.example"⟩ "http://h/" "zzz" "t2"] oneLinkSys).db
      = some "https://example.com" :=
  link_record_immutable
    [Op.scanOp "abc" "9.9.9.9" "t1",
     Op.issueOp ⟨[], "https://other.example"⟩ "http://h/" "zzz" "t2"]
    oneLinkSys "abc" "https://example.com" (by decide)

/-- C7: recordScan always succeeds and appends exactly one ScanEvent for
the given slug, for EVERY database state — in particular also when no
LinkRecord with that slug exists, since `qr_scans` carries no foreign-key
constraint and the insert never consults `qr_codes` (last conjunct:
the result is unchanged under any replacement of the link table). -/
theorem record_scan_unconditional (slug src now : String) (db : DB) :
    (recordScan slug src now db).2.qr_scans
        = db.qr_scans ++ [(recordScan slug src now db).1] ∧
    (recordScan slug src now db).1.slug = slug ∧
    (recordScan slug src now db).2.qr_codes = db.qr_codes ∧
    ∀ codes2 : List LinkRecord,
      recordScan slug src now { db with qr_codes := codes2 }
        = ((recordScan slug src now db).1,
           { (recordScan slug src now db).2 with qr_codes := codes2 }) :=
  ⟨rfl, rfl, rfl, fun _ => rfl⟩

/-- C8 counterexample: receive_webhook saves the QR image BEFORE the
database insert. With slug "abc" already stored (for another destination)
and no files on disk, a failing issuance leaves the freshly written image
artifact behind — a caller-visible side effect of a failed issue, and an
image whose issuance never created its LinkRecord (the slug still maps to
the old destination, not the failed caller's). -/
theorem issue_failure_side_effect_cex :
    (receive_webhook ⟨[], "https://new.example"⟩ "http://h/" "abc" "t1" sysNoFile).1
      = IssueOutcome.integrityError ∧
    (receive_webhook ⟨[], "https://new.example"⟩ "http://h/" "abc" "t1" sysNoFile).2.files
      = [("abc.png", qrcodeMake "http://h/r/abc")] ∧
    sysNoFile.files = [] ∧
    lookupUrl "abc"
      (receive_webhook ⟨[], "https://new.example"⟩ "http://h/" "abc" "t1" sysNoFile).2.db
      = some "https://old.example" := by decide

/-- C8 amended: issuance is not all-or-nothing. When the insert step fails,
the database is left unchanged (the transaction rolls back) but the QR
image file has already been saved and remains on disk under the slug's
name. -/
theorem issue_failure_leaves_image (p : WebhookPayload) (base slug now : String)
    (s : Sys) (h : (receive_webhook p base slug now s).1 = IssueOutcome.integrityError) :
    (receive_webhook p base slug now s).2.db = s.db ∧
    getFile (slug ++ ".png") (receive_webhook p base slug now s).2.files
      = some (qrcodeMake (base ++ "r/" ++ slug)) := by
  cases hi : insertLink slug (buildDestinationUrl p.base_url p.params)
      ("qr_codes/" ++ (slug ++ ".png")) now s.db with
  | some db1 => exact absurd h (by simp [receive_webhook, hi])
  | none =>
    exact ⟨by simp [receive_webhook, hi],
           by simp [receive_webhook, hi, getFile_saveFile]⟩

/-- Witness for the amended C8 at a concrete colliding issuance. -/
theorem issue_failure_leaves_image_witness :
    (receive_webhook ⟨[], "https://new2.example"⟩ "http://h/" "abc" "t4" oneLinkSys).2.db
      = oneLinkSys.db ∧
    getFile ("abc" ++ ".png")
      (receive_webhook ⟨[], "https://new2.example"⟩ "http://h/" "abc" "t4" oneLinkSys).2.files
      = some (qrcodeMake ("http://h/" ++ "r/" ++ "abc")) :=
  issue_failure_leaves_image ⟨[], "https://new2.example"⟩ "http://h/" "abc" "t4"
    oneLinkSys (by decide)

/-- C9: the payload encoded into the QR image is always the redirect URL
`resolverBaseUrl ++ "/r/" ++ slug` (the handler computes
`request.base_url ++ "r/" ++ slug`, and Starlette's `request.base_url`
ends in "/", so the base here is `r ++ "/"`). It holds for EVERY payload,
so the encoded text never depends on — and in particular never is — the
raw destinationUrl; and whenever issuance succeeds, the returned
redirect_url is that same URL. -/
theorem qr_payload_is_redirect_url (p : WebhookPayload) (r slug now : String) (s : Sys) :
    getFile (slug ++ ".png") (receive_webhook p (r ++ "/") slug now s).2.files
      = some (qrcodeMake (r ++ "/r/" ++ slug)) ∧
    ∀ q d : String,
      (receive_webhook p (r ++ "/") slug now s).1 = IssueOutcome.ok q d →
      d = r ++ "/r/" ++ slug := by
  have hx : (r ++ "/") ++ "r/" ++ slug = r ++ "/r/" ++ slug := by
    have h2 : ("/" : String) ++ "r/" = "/r/" := by decide
    rw [String.append_assoc r "/" "r/", h2]
  constructor
  · cases hi : insertLink slug (buildDestinationUrl p.base_url p.params)
        ("qr_codes/" ++ (slug ++ ".png")) now s.db with
    | some db1 => simp [receive_webhook, hi, ← hx, getFile_saveFile]
    | none => simp [receive_webhook, hi, ← hx, getFile_saveFile]
  · intro q d hqd
    cases hi : insertLink slug (buildDestinationUrl p.base_url p.params)
        ("qr_codes/" ++ (slug ++ ".png")) now s.db with
    | some db1 =>
      simp [receive_webhook, hi] at hqd
      rw [← hqd.2, hx]
    | none => simp [receive_webhook, hi] at hqd

/-- Witness for C9: a concrete issuance whose returned redirect_url is the
resolver URL for the slug. -/
theorem qr_payload_is_redirect_url_witness :
    "http://h/r/abc" = "http://h" ++ "/r/" ++ "abc" :=
  (qr_payload_is_redirect_url ⟨[], "https://d.example"⟩ "http://h" "abc" "t1" emptySys).2
    "/static/abc.png" "http://h/r/abc" (by decide)

/-- C10: for non-empty params the handler appends "?" plus the encoded
query unconditionally — even when the template already contains a "?", in
which case the resulting destinationUrl holds at least two "?"
characters. -/
theorem query_appended_even_with_existing_query (t : String)
    (params : List (String × String)) (hp : params ≠ []) :
    buildDestinationUrl t params = t ++ "?" ++ urlencode params ∧
    ('?' ∈ t.data → 2 ≤ (buildDestinationUrl t params).data.count '?') := by
  have h1 : buildDestinationUrl t params = t ++ "?" ++ urlencode params := by
    simp [buildDestinationUrl, hp]
  refine ⟨h1, fun hq => ?_⟩
  rw [h1, String.data_append, String.data_append, List.count_append, List.count_append]
  have hqt : 0 < t.data.count '?' := List.count_pos_iff.mpr hq
  have hone : ("?" : String).data.count '?' = 1 := by decide
  omega

/-- Witness for C10: a template already carrying a query string ends up
with two "?" characters. -/
theorem query_appended_even_with_existing_query_witness :
    2 ≤ (buildDestinationUrl "https://example.com?x=1" [("a", "1")]).data.count '?' :=
  (query_appended_even_with_existing_query "https://example.com?x=1" [("a", "1")]
    (by decide)).2 (by decide)

end QRServer
